import Mathlib

/-!
Verification of the worker-supervisor logic of app.py (Flask front end plus
a background polling-bot thread).  The module-level mutable globals and the
functions that read and write them are embedded as pure Lean definitions;
the thread interleaving needed by the claims about races is embedded as an
explicit event step relation over the same shared state.
-/

namespace TelegramBotApp

/-- The module-level mutable globals of app.py (lines 40 to 44).  The two
handles telegram_app and bot_thread are represented by the generation
number of the application object and of the worker thread they point at
(none when the global is None). -/
structure BotState where
  telegram_app : Option Nat
  bot_thread : Option Nat
  bot_running : Bool
  bot_start_time : Option Nat
  last_error : Option String
deriving Repr, DecidableEq

/-- The globals at process start: everything None, bot_running False. -/
def initialState : BotState :=
  { telegram_app := none, bot_thread := none, bot_running := false,
    bot_start_time := none, last_error := none }

/-- Response body of the health route (app.py lines 188 to 197). -/
structure HealthResponse where
  status : String
  service : String
  bot_status : String
  uptime : Nat
  last_error : Option String
deriving Repr, DecidableEq

/-- GET /health (app.py lines 188 to 197): the top-level status field is
the string literal healthy; bot_status is running or stopped from the
bot_running flag; uptime is int(time.time() - bot_start_time) when
bot_start_time is set and 0 otherwise; last_error is passed through. -/
def health_check (s : BotState) (now : Nat) : HealthResponse :=
  { status := "healthy",
    service := "telegram-bot",
    bot_status := if s.bot_running then "running" else "stopped",
    uptime := (match s.bot_start_time with
      | some t => now - t
      | none => 0),
    last_error := s.last_error }

/-- Response body of the bot_status route (app.py lines 199 to 231),
restricted to the fields the claims mention. -/
structure BotStatusResponse where
  bot_running : Bool
  thread_alive : Bool
  application_running : Bool
  uptime_seconds : Nat
  last_error : Option String
deriving Repr, DecidableEq

/-- GET /bot_status (app.py lines 199 to 231).  threadAliveNow and
appRunningNow stand for the runtime queries bot_thread.is_alive() and
telegram_app.running; the route reports them only when the corresponding
handle is set (lines 205 and 208 to 214).  uptime_seconds (line 217) is
computed from bot_start_time alone, exactly like the health route. -/
def bot_status (s : BotState) (now : Nat) (threadAliveNow appRunningNow : Bool) :
    BotStatusResponse :=
  { bot_running := s.bot_running,
    thread_alive := if s.bot_thread.isSome then threadAliveNow else false,
    application_running := if s.telegram_app.isSome then appRunningNow else false,
    uptime_seconds := (match s.bot_start_time with
      | some t => now - t
      | none => 0),
    last_error := s.last_error }

/-- How one call of run_polling inside bot_worker ends: stopped means it
returned normally because the application had been stopped (the
requested-stop path of restart_bot, which calls telegram_app.stop());
raised msg means it raised an exception whose str is msg. -/
inductive RunOutcome where
  | stopped
  | raised (msg : String)
deriving Repr, DecidableEq

/-- bot_worker (app.py lines 143 to 169) run to completion with outcome o,
where t is the value time.time() returned at line 153.  The try block
first sets bot_running True, records bot_start_time and clears last_error
(lines 152 to 154); on an exception the except block sets bot_running
False and last_error to str(e) (lines 165 to 166); the finally block sets
bot_running False unconditionally (line 169).  No generation check is
performed anywhere in the function. -/
def bot_worker (s : BotState) (t : Nat) (o : RunOutcome) : BotState :=
  let s1 : BotState :=
    { s with bot_running := true, bot_start_time := some t, last_error := none }
  match o with
  | .stopped => { s1 with bot_running := false }
  | .raised msg => { s1 with bot_running := false, last_error := some msg }

/-- Whether bot_thread.join(timeout=10) at app.py line 254 observed the old
thread terminate (joined) or returned while it was still alive (timedOut,
the branch at lines 255 to 256 that only logs a warning). -/
inductive JoinOutcome where
  | joined
  | timedOut
deriving Repr, DecidableEq

/-- HTTP reply of the restart route: status string and HTTP code. -/
structure RestartResponse where
  status : String
  code : Nat
deriving Repr, DecidableEq

/-- POST /restart_bot (app.py lines 233 to 279).  The stop phase (lines
242 to 256) stops the old application object and joins the old thread
with a 10 second timeout; the outcome of that join is only logged, never
reflected in state or response, so the argument below is deliberately
unused.  Lines 259 and 260 then reset bot_running to False and last_error
to None.  The setup argument stands for setup_telegram_bot (lines 117 to
137), which returns the new application on success and, after catching
any exception, returns None without touching last_error; newGen is the
generation number of the new application object and worker thread.  On
setup success the route replaces the handles, starts the new thread and
immediately replies 200 without inspecting the new worker; on setup
failure it replies 500 with a fixed message (line 274). -/
def restart_bot (s : BotState) (_join : JoinOutcome) (setup : Except String Unit)
    (newGen : Nat) : BotState × RestartResponse :=
  let s1 : BotState := { s with bot_running := false, last_error := none }
  match setup with
  | .ok _ =>
      ({ s1 with telegram_app := some newGen, bot_thread := some newGen },
       { status := "Bot restarted successfully", code := 200 })
  | .error _ =>
      (s1, { status := "Error: Failed to setup bot", code := 500 })

/-- handle_message (app.py lines 94 to 115) for a plain text message: the
handler is registered with filters.TEXT and not COMMAND (line 130), so
update.message.text is a string and line 96 cannot raise.  groq_client is
None or a completion function returning the reply text or an error; the
result is the list of replies sent.  When groq_client is None the guarded
block (lines 98 to 112) is skipped entirely and no reply is sent; when it
is set, a successful completion is echoed and a completion error degrades
to a fixed apology line (line 112). -/
def handle_message (groq_client : Option (String → Except String String))
    (text : String) : List String :=
  match groq_client with
  | none => []
  | some complete =>
      match complete text with
      | .ok reply => [reply]
      | .error _ => ["Error querying Groq service."]

/-- Program counter of one worker-thread generation inside bot_worker:
which of its shared-state writes have already executed. -/
inductive WorkerPC where
  | spawned
  | didSetRunning
  | didSetStart
  | polling
  | didRaise
  | finished
deriving Repr, DecidableEq

/-- Shared globals together with the program counter of every worker
generation; none means that generation was never spawned. -/
structure Sys where
  st : BotState
  wpc : Nat → Option WorkerPC

/-- The system at process start: initial globals, no worker spawned. -/
def initSys : Sys := { st := initialState, wpc := fun _ => none }

/-- Point update of the program-counter map. -/
def updf (f : Nat → Option WorkerPC) (g : Nat) (p : WorkerPC) :
    Nat → Option WorkerPC :=
  fun x => if x = g then some p else f x

/-- Atomic events of the interleaved execution.  Worker generation g
performs, in order: runFlagEv (line 152), startTimeEv (line 153),
clearErrEv (line 154), then either raiseEv followed by finRaisedEv (lines
165 to 166 then 169) or finCleanEv (line 169 after run_polling returned).
The restart route contributes resetEv (lines 259 to 260), setupEv (line
264, setup_telegram_bot succeeding and replacing telegram_app) and
spawnEv (lines 266 and 172 to 174, starting a fresh thread).  Because the
join at line 254 may time out and the route proceeds anyway, the restart
events carry no precondition on the old worker having finished. -/
inductive Ev where
  | resetEv
  | setupEv (g : Nat)
  | spawnEv (g : Nat)
  | runFlagEv (g : Nat)
  | startTimeEv (g t : Nat)
  | clearErrEv (g : Nat)
  | raiseEv (g : Nat) (msg : String)
  | finCleanEv (g : Nat)
  | finRaisedEv (g : Nat)
deriving Repr, DecidableEq

/-- Whether an event can fire in a given system state: worker events
require that generation to be at the matching program point. -/
def enabledB (σ : Sys) : Ev → Bool
  | .resetEv => true
  | .setupEv _ => true
  | .spawnEv g => (σ.wpc g).isNone
  | .runFlagEv g => (match σ.wpc g with | some .spawned => true | _ => false)
  | .startTimeEv g _ => (match σ.wpc g with | some .didSetRunning => true | _ => false)
  | .clearErrEv g => (match σ.wpc g with | some .didSetStart => true | _ => false)
  | .raiseEv g _ => (match σ.wpc g with | some .polling => true | _ => false)
  | .finCleanEv g => (match σ.wpc g with | some .polling => true | _ => false)
  | .finRaisedEv g => (match σ.wpc g with | some .didRaise => true | _ => false)

/-- Effect of one atomic event on the shared globals and the program
counters; each case mirrors the assignment on the source line named in
the documentation of Ev. -/
def applyEv (σ : Sys) : Ev → Sys
  | .resetEv =>
      { σ with st := { σ.st with bot_running := false, last_error := none } }
  | .setupEv g =>
      { σ with st := { σ.st with telegram_app := some g } }
  | .spawnEv g =>
      { st := { σ.st with bot_thread := some g }, wpc := updf σ.wpc g .spawned }
  | .runFlagEv g =>
      { st := { σ.st with bot_running := true }, wpc := updf σ.wpc g .didSetRunning }
  | .startTimeEv g t =>
      { st := { σ.st with bot_start_time := some t }, wpc := updf σ.wpc g .didSetStart }
  | .clearErrEv g =>
      { st := { σ.st with last_error := none }, wpc := updf σ.wpc g .polling }
  | .raiseEv g msg =>
      { st := { σ.st with bot_running := false, last_error := some msg },
        wpc := updf σ.wpc g .didRaise }
  | .finCleanEv g =>
      { st := { σ.st with bot_running := false }, wpc := updf σ.wpc g .finished }
  | .finRaisedEv g =>
      { st := { σ.st with bot_running := false }, wpc := updf σ.wpc g .finished }

/-- One interleaved step: some enabled event fires atomically. -/
def Step (σ σ2 : Sys) : Prop := ∃ e, enabledB σ e = true ∧ σ2 = applyEv σ e

/-- Reachability of a system state from process start. -/
def Reach (σ : Sys) : Prop := Relation.ReflTransGen Step initSys σ

/-- A worker-thread generation is alive when it has been spawned and its
bot_worker frame has not yet run to completion. -/
def threadAlive (σ : Sys) (g : Nat) : Bool :=
  match σ.wpc g with
  | none => false
  | some .finished => false
  | some _ => true

/-- Run a list of events from a state. -/
def runEvs (σ : Sys) (es : List Ev) : Sys := es.foldl applyEv σ

/-- Every event of the list is enabled at the point where it fires. -/
def allEnabled (σ : Sys) : List Ev → Bool
  | [] => true
  | e :: es => enabledB σ e && allEnabled (applyEv σ e) es

theorem reach_apply {σ : Sys} {e : Ev} (h : Reach σ) (he : enabledB σ e = true) :
    Reach (applyEv σ e) :=
  h.tail ⟨e, he, rfl⟩

theorem reach_runEvs : ∀ (es : List Ev) (σ : Sys), Reach σ →
    allEnabled σ es = true → Reach (runEvs σ es)
  | [], _, h, _ => h
  | e :: es, σ, h, hall => by
      simp only [allEnabled, Bool.and_eq_true] at hall
      exact reach_runEvs es (applyEv σ e) (reach_apply h hall.1) hall.2

/-- State for claim C1: generation 1 starts and polls; a restart stops its
application, gives up joining after the timeout, resets the globals and
starts generation 2, which fully enters its polling loop while generation
1 has not yet executed its finally block. -/
def c1pre : Sys := runEvs initSys
  [.setupEv 1, .spawnEv 1, .runFlagEv 1, .startTimeEv 1 100, .clearErrEv 1,
   .resetEv, .setupEv 2, .spawnEv 2, .runFlagEv 2, .startTimeEv 2 200, .clearErrEv 2]

/-- State for claim C1 after the stale generation 1 finally block runs. -/
def c1post : Sys := applyEv c1pre (.finCleanEv 1)

/-- C1, refuted on the code: in a reachable execution where generation 1
was superseded by a restart and generation 2 is alive and running, the
stale generation 1 termination (the finally block at app.py line 169)
flips bot_running from true to false, because bot_worker updates the
shared flag with no check that its own generation still matches the
current bot_thread handle. -/
theorem c1_stale_termination_flips_running :
    Reach c1pre ∧ Step c1pre c1post ∧
    c1pre.st.bot_thread = some 2 ∧ c1pre.wpc 1 = some WorkerPC.polling ∧
    c1pre.st.bot_running = true ∧ threadAlive c1pre 2 = true ∧
    c1post.st.bot_running = false ∧ threadAlive c1post 2 = true ∧
    c1post.wpc 1 = some WorkerPC.finished := by
  refine ⟨reach_runEvs _ initSys Relation.ReflTransGen.refl (by decide),
    ⟨Ev.finCleanEv 1, by decide, rfl⟩, rfl, rfl, rfl, rfl, rfl, rfl, rfl⟩

/-- State for claim C2: the very first worker generation has executed the
assignment bot_running = True (app.py line 152) but not yet the
assignment to bot_start_time (line 153). -/
def c2state : Sys := runEvs initSys [.setupEv 1, .spawnEv 1, .runFlagEv 1]

/-- C2, refuted on the code: a reachable state between lines 152 and 153
of the first start has bot_running true while bot_start_time is still
absent, and a concurrent health reader observing that state reports
bot_status running with an uptime computed from an absent start time.
There is no lock, so readers can run between the two assignments. -/
theorem c2_running_observed_without_started_at :
    Reach c2state ∧ c2state.st.bot_running = true ∧
    c2state.st.bot_start_time = none ∧
    (health_check c2state.st 7).bot_status = "running" ∧
    (health_check c2state.st 7).uptime = 0 := by
  exact ⟨reach_runEvs _ initSys Relation.ReflTransGen.refl (by decide),
    rfl, rfl, rfl, rfl⟩

/-- State for claim C3: generation 1 starts at time 100, then run_polling
raises and the worker terminates; bot_start_time is never cleared. -/
def c3state : Sys := runEvs initSys
  [.setupEv 1, .spawnEv 1, .runFlagEv 1, .startTimeEv 1 100, .clearErrEv 1,
   .raiseEv 1 "boom", .finRaisedEv 1]

/-- C3, counterexample: a reachable state with bot_running false whose
health report at time 250 still shows uptime 150 computed from the stale
bot_start_time, so uptime is neither 0 nor absent while running is
false. -/
theorem c3_counterexample_uptime_not_reset :
    Reach c3state ∧ c3state.st.bot_running = false ∧
    (health_check c3state.st 250).uptime = 150 ∧
    (health_check c3state.st 250).uptime ≠ 0 := by
  exact ⟨reach_runEvs _ initSys Relation.ReflTransGen.refl (by decide),
    rfl, rfl, by decide⟩

/-- C3, amended: uptime is computed from bot_start_time alone, as now
minus startedAt whenever startedAt is present regardless of the running
flag (and 0 only when startedAt is absent); a worker termination leaves
bot_start_time in place, so after a stop the previously accumulated
uptime is retained and keeps growing while running is false. -/
theorem c3_amended_uptime_from_started_at (s : BotState) (t now : Nat) :
    (health_check { s with bot_start_time := some t } now).uptime = now - t ∧
    (bot_status { s with bot_start_time := some t } now true true).uptime_seconds
      = now - t ∧
    (bot_worker s t RunOutcome.stopped).bot_start_time = some t ∧
    (bot_worker s t RunOutcome.stopped).bot_running = false ∧
    (health_check (bot_worker s t RunOutcome.stopped) now).uptime = now - t :=
  ⟨rfl, rfl, rfl, rfl, rfl⟩

/-- C4, confirmed: a worker generation whose run_polling raises after the
try block entered the running state leaves bot_running false with
last_error recording the exception text (except block, lines 165 to 166),
while a generation whose run_polling returns because a stop was requested
leaves bot_running false with last_error still absent (only the finally
block runs, line 169, and line 154 had cleared the error on entry): a
requested stop is never recorded as a fault. -/
theorem c4_fault_recorded_requested_stop_not (s : BotState) (t : Nat) (msg : String) :
    (bot_worker s t (RunOutcome.raised msg)).bot_running = false ∧
    (bot_worker s t (RunOutcome.raised msg)).last_error = some msg ∧
    (bot_worker s t RunOutcome.stopped).bot_running = false ∧
    (bot_worker s t RunOutcome.stopped).last_error = none :=
  ⟨rfl, rfl, rfl, rfl⟩

/-- State for claim C5: generation 1 is fully inside its polling loop; a
restart whose join timed out resets the globals, sets up a new
application and spawns generation 2 anyway. -/
def c5state : Sys := runEvs initSys
  [.setupEv 1, .spawnEv 1, .runFlagEv 1, .startTimeEv 1 100, .clearErrEv 1,
   .resetEv, .setupEv 2, .spawnEv 2]

/-- C5, refuted on the code: a reachable state in which the worker threads
of generations 1 and 2 are both alive at once, generation 1 still in its
polling loop, because the restart route only logs a warning when the join
times out (app.py lines 255 to 256) and then starts a second thread over
the still-alive one. -/
theorem c5_double_start_over_zombie :
    Reach c5state ∧ threadAlive c5state 1 = true ∧ threadAlive c5state 2 = true ∧
    c5state.wpc 1 = some WorkerPC.polling ∧ c5state.st.bot_thread = some 2 := by
  exact ⟨reach_runEvs _ initSys Relation.ReflTransGen.refl (by decide),
    rfl, rfl, rfl, rfl⟩

/-- A concrete pre-restart state used for claim C6: an earlier fault is on
record and the supervisor is idle. -/
def c6preState : BotState :=
  { telegram_app := some 1, bot_thread := some 1, bot_running := false,
    bot_start_time := some 50, last_error := some "old fault" }

/-- C6, refuted on the code: when setup_telegram_bot fails during a
restart, the route replies 500 with the fixed text and no collaborator
error detail, and last_error ends up None rather than recording the
collaborator error text, because setup_telegram_bot only logs the
exception and restart_bot had just cleared last_error at line 260. -/
theorem c6_setup_failure_not_recorded :
    (restart_bot c6preState JoinOutcome.joined (Except.error "boom") 2).2.code
      = 500 ∧
    (restart_bot c6preState JoinOutcome.joined (Except.error "boom") 2).2.status
      = "Error: Failed to setup bot" ∧
    (restart_bot c6preState JoinOutcome.joined (Except.error "boom") 2).1.last_error
      = none ∧
    (restart_bot c6preState JoinOutcome.joined (Except.error "boom") 2).1.bot_running
      = false :=
  ⟨rfl, rfl, rfl, rfl⟩

/-- A concrete pre-restart state used for claim C7: the old worker is
running when the restart is requested. -/
def c7preState : BotState :=
  { telegram_app := some 1, bot_thread := some 1, bot_running := true,
    bot_start_time := some 50, last_error := none }

/-- C7, refuted on the code: the reply of the restart route after its stop
phase timed out waiting for the old thread is identical to the reply
after a clean join, an unqualified 200 success, so the caller cannot
distinguish a clean stop from a forced one; the timeout is only
logged. -/
theorem c7_timeout_stop_not_distinguished :
    (restart_bot c7preState JoinOutcome.timedOut (Except.ok ()) 2).2
      = (restart_bot c7preState JoinOutcome.joined (Except.ok ()) 2).2 ∧
    (restart_bot c7preState JoinOutcome.timedOut (Except.ok ()) 2).2.status
      = "Bot restarted successfully" ∧
    (restart_bot c7preState JoinOutcome.timedOut (Except.ok ()) 2).2.code = 200 :=
  ⟨rfl, rfl, rfl⟩

/-- C8, confirmed: the health route reports the top-level status field as
the constant healthy in every state, stopped or faulted included; only
the separate bot_status field reflects the running flag. -/
theorem c8_health_status_always_healthy (s : BotState) (now : Nat) :
    (health_check s now).status = "healthy" ∧
    (health_check s now).bot_status
      = (if s.bot_running then "running" else "stopped") :=
  ⟨rfl, rfl⟩

/-- C9, confirmed: with no configured text-generation client the plain
text message handler sends no reply at all, for every message text. -/
theorem c9_no_groq_client_no_reply (text : String) :
    handle_message none text = [] :=
  rfl

/-- C10, confirmed: whenever setup succeeds, the restart route replies 200
Bot restarted successfully whatever the join outcome and before the new
worker has run at all; in particular the same success reply stands even
when the freshly started generation immediately dies with a fault,
leaving bot_running false and last_error set. -/
theorem c10_restart_reports_success_unverified (s : BotState) (j : JoinOutcome)
    (g t : Nat) (msg : String) :
    (restart_bot s j (Except.ok ()) g).2.status = "Bot restarted successfully" ∧
    (restart_bot s j (Except.ok ()) g).2.code = 200 ∧
    (bot_worker (restart_bot s j (Except.ok ()) g).1 t (RunOutcome.raised msg)).bot_running
      = false ∧
    (bot_worker (restart_bot s j (Except.ok ()) g).1 t (RunOutcome.raised msg)).last_error
      = some msg :=
  ⟨rfl, rfl, rfl, rfl⟩

end TelegramBotApp
